import Mathlib

/-!
Verification of the Zabbix-to-NetBox reconciliation engine (src/sync.py,
src/utils.py, src/config.py, src/main.py) against its specification.

The Python code is shallowly embedded: dictionaries become association
lists, remote NetBox records become explicit structures, process state
(NetBox content, the Redis fingerprint cache, run statistics) is threaded
through pure functions, and every remote write performed by the engine is
logged in the state so that theorems can count create and update calls.

Modelling conventions, stated once here:
- Remote calls never fail in the model; error handling of transport
  failures is outside every claim except the collector claim, where the
  collector failure is an explicit parameter.
- Dependent entity resolution (ensure_manufacturer, ensure_device_type,
  ensure_location, ensure_rack, device roles) is get-or-create in the
  code and therefore idempotent; it is abstracted as a deterministic
  environment of lookup functions returning NetBox identifiers.
- SHA-256 over the canonical JSON string is modelled by the canonical
  string itself: the claims only use that equal inputs give equal hashes,
  never collision behaviour.
- pynetbox record attributes that NetBox serves as value/label objects
  (device status, rack face) are modelled as their plain value strings.
- A NetBox PATCH issued by device.update merges the custom_fields
  dictionary key by key: keys absent from the payload keep their stored
  values.  Top-level fields present in the payload are overwritten.
-/

namespace ZNSync

/-- Association list lookup, first match wins, mirroring Python dict.get. -/
def getKV {α : Type} (l : List (String × α)) (k : String) : Option α :=
  (l.find? (fun p => p.1 == k)).map Prod.snd

/-- Association list update: replace the first binding of the key or append. -/
def setKV {α : Type} : List (String × α) → String → α → List (String × α)
  | [], k, v => [(k, v)]
  | p :: t, k, v => if p.1 = k then (k, v) :: t else p :: setKV t k v

/-- Python inventory.get(key, two-argument form with empty default). -/
def invGet (inv : List (String × String)) (k : String) : String :=
  (getKV inv k).getD ""

/-- Python str applied to an optional string; str of None is the text None. -/
def optStr : Option String → String
  | none => "None"
  | some s => s

/-- Decimal value of a digit string, as Python int on an all-digit string. -/
def strToNat (s : String) : Nat :=
  s.data.foldl (fun n c => n * 10 + (c.toNat - 48)) 0

/-- Substring test on character lists, used for Python membership on str. -/
def containsSub : List Char → List Char → Bool
  | [], nee => nee.isEmpty
  | c :: t, nee => nee.isPrefixOf (c :: t) || containsSub t nee

/-- Python str.strip: drop whitespace from both ends. -/
def pyStrip (s : String) : String :=
  String.mk (((s.data.dropWhile Char.isWhitespace).reverse.dropWhile
    Char.isWhitespace).reverse)

/-- Python str.lower over the character list. -/
def pyLower (s : String) : String :=
  String.mk (s.data.map Char.toLower)

/-- Split a character list at every occurrence of the separator, as
Python str.split with a one-character separator; the empty string yields
one empty part. -/
def splitOnCharAux (sep : Char) : List Char → List Char → List String
  | [], acc => [String.mk acc]
  | c :: t, acc =>
    if c = sep then String.mk acc :: splitOnCharAux sep t []
    else splitOnCharAux sep t (acc ++ [c])

/-- Split a string at every occurrence of the separator character. -/
def splitOnChar (sep : Char) (s : String) : List String :=
  splitOnCharAux sep s.data []

/-- Decimal rendering of an integer. -/
def intStr : Int → String
  | Int.ofNat n => toString n
  | Int.negSucc n => "-" ++ toString (n + 1)

/-- Collapse every maximal run of whitespace to one space, as re.sub of a
whitespace run by a single space. -/
def collapseWs : List Char → List Char
  | [] => []
  | [c] => if c.isWhitespace then [' '] else [c]
  | c :: d :: t =>
    if c.isWhitespace && d.isWhitespace then collapseWs (d :: t)
    else (if c.isWhitespace then ' ' else c) :: collapseWs (d :: t)

/-- Remove one trailing line feed, if present.  In a Python regular
expression the dollar anchor matches at the end of the string and also
just before a line feed that ends it, so an anchored pattern whose body
cannot consume a line feed accepts exactly the strings that match after
their one trailing line feed, if any, has been removed. -/
def stripTrailingNewline (s : String) : String :=
  match s.data.reverse with
  | '\n' :: r => String.mk r.reverse
  | _ => s

/-- DataValidator.validate_ip from src/utils.py lines 48 to 67.  The
regular expression of three dot-terminated one-to-three-digit groups and
a final one-to-three-digit group, anchored at both ends, is rendered as:
after removing one trailing line feed (which the dollar anchor permits),
splitting on the dot yields exactly four parts, each one to three
digits.  The value loop of lines 58 to 61 converts the parts of the raw
split; since Python int ignores surrounding whitespace it computes the
same values as on the parts of the stripped string, which is how the
loop is rendered here.  The special-address comparison of line 64 uses
the unmodified input, so an excluded address with a trailing line feed
is accepted.  Characters are modelled within the ASCII plane: the digit
class of the pattern (and Python int) also admits the other Unicode
decimal digits, which this embedding does not cover. -/
def validate_ip (ip : String) : Bool :=
  if ip = "" then false
  else
    let parts := splitOnChar '.' (stripTrailingNewline ip)
    if !(parts.length == 4 &&
         parts.all (fun p => 1 ≤ p.length && p.length ≤ 3 &&
                             p.data.all Char.isDigit)) then false
    else if parts.any (fun octet => strToNat octet > 255) then false
    else if ip = "0.0.0.0" || ip = "127.0.0.1" || ip = "255.255.255.255" then false
    else true

/-- A Zabbix host interface as selected by the collector: its address and
its main flag, both strings as the Zabbix API serves them. -/
structure Iface where
  ip : String
  main : String
deriving DecidableEq

/-- A Zabbix host record as consumed by the engine: the stable hostid, the
display name, the status enum as a string, the inventory dictionary, the
interface list, and the template and group names used by the collector
filter. -/
structure Host where
  hostid : String
  name : String
  status : String
  inventory : List (String × String)
  interfaces : List Iface
  templates : List String
  groups : List String
deriving DecidableEq

/-- IPHelper.get_primary_ip from src/utils.py lines 199 to 217: first the
interfaces flagged main, then any interface, returning the first address
that passes validation. -/
def get_primary_ip (h : Host) : Option String :=
  match h.interfaces.find? (fun i => i.main == "1" && i.ip != "" && validate_ip i.ip) with
  | some i => some i.ip
  | none =>
    match h.interfaces.find? (fun i => i.ip != "" && validate_ip i.ip) with
    | some i => some i.ip
    | none => none

/-- DataNormalizer.normalize_vendor vendor aliasing table, src/utils.py. -/
def vendor_mapping : List (String × String) :=
  [("Dell Inc.", "Dell"), ("DELL", "Dell"),
   ("Hewlett Packard Enterprise", "HPE"), ("HP", "HPE"),
   ("Huawei Technologies Co., Ltd.", "Huawei"),
   ("LENOVO", "Lenovo"), ("VMware, Inc.", "VMware")]

/-- DataNormalizer.normalize_vendor from src/utils.py lines 102 to 120. -/
def normalize_vendor (vendor : String) : String :=
  if vendor = "" || vendor = "N/A" then "Unknown"
  else
    let v := pyStrip vendor
    (getKV vendor_mapping v).getD v

/-- DataNormalizer.normalize_model from src/utils.py lines 122 to 136. -/
def normalize_model (model : String) : String :=
  if model = "" || model = "N/A" then "Unknown"
  else
    let m := String.mk (collapseWs (pyStrip model).data)
    if containsSub (pyLower m).data "to be filled".data then "Unknown" else m

/-- DataNormalizer.normalize_memory from src/utils.py lines 73 to 100.
The leading decimal number followed by a unit is parsed exactly; the
binary floating point evaluation of Python is idealised to exact decimal
arithmetic truncated toward zero, which none of the claims depend on. -/
def normalize_memory (memory : String) : Option Nat :=
  if memory = "" || memory = "N/A" then none
  else
    let cs := memory.data
    let ds := cs.takeWhile Char.isDigit
    if ds.isEmpty then none
    else
      let rest := cs.dropWhile Char.isDigit
      let fs := match rest with
        | '.' :: r => r.takeWhile Char.isDigit
        | _ => []
      let rest2 := match rest with
        | '.' :: r => r.dropWhile Char.isDigit
        | _ => rest
      let rest3 := rest2.dropWhile Char.isWhitespace
      let num := (String.mk (ds ++ fs)).toList.foldl
        (fun n c => n * 10 + (c.toNat - 48)) 0
      let den := Nat.pow 10 fs.length
      match rest3 with
      | c1 :: c2 :: _ =>
        let u := String.mk [c1.toUpper, c2.toUpper]
        if u = "TB" then some (num * 1024 / den)
        else if u = "GB" then some (num / den)
        else if u = "MB" then some (num / (den * 1024))
        else none
      | _ => none

/-- The ordered list of significant fields hashed by
HashCalculator.calculate_host_hash, src/utils.py lines 166 to 193, already
in the sorted-key order produced by json.dumps with sort_keys. -/
def hash_fields (h : Host) (primary_ip : Option String) : List (String × String) :=
  [("asset_tag", invGet h.inventory "asset_tag"),
   ("cluster", invGet h.inventory "alias"),
   ("cpu", invGet h.inventory "hardware"),
   ("ip", primary_ip.getD ""),
   ("location", invGet h.inventory "location"),
   ("memory", invGet h.inventory "software_app_a"),
   ("model", normalize_model (invGet h.inventory "model")),
   ("name", h.name),
   ("os", invGet h.inventory "os"),
   ("os_version", invGet h.inventory "os_short"),
   ("rack_name", invGet h.inventory "location_lat"),
   ("rack_unit", invGet h.inventory "location_lon"),
   ("serial", invGet h.inventory "serialno_a"),
   ("status", h.status)] ++
  [("vendor", normalize_vendor (invGet h.inventory "vendor"))]

/-- HashCalculator.calculate_host_hash: the SHA-256 digest of the
canonical sorted-keys JSON string.  The digest is modelled by the
canonical string itself; only equality of hashes on equal inputs is ever
used by the engine and by the claims. -/
def calculate_host_hash (h : Host) (primary_ip : Option String) : String :=
  (hash_fields h primary_ip).foldl
    (fun acc p => acc ++ p.1 ++ ":" ++ p.2 ++ ";") ""

/-- SITE_MAPPING from src/config.py: leading two octets to site name. -/
def SITE_MAPPING : List (String × String) :=
  [("10.11", "DC Kabanbay-Batyr28"), ("10.127", "DC Almaty"),
   ("10.13", "DC Karaganda"), ("10.14", "DC Atyrau"),
   ("10.10", "DC Konaeva10"), ("192.168", "DC Konaeva10")]

/-- LOCATION_MAPPING from src/config.py: site name to location name. -/
def LOCATION_MAPPING : List (String × String) :=
  [("DC Kabanbay-Batyr28", "city Astana street Kabanbay batyr 28"),
   ("DC Almaty", "city Almaty street Karasay Batyr 55"),
   ("DC Karaganda", "city Karaganda street 132 uchetny kvartal 168"),
   ("DC Atyrau", "city Atyrau street XXX"),
   ("DC Konaeva10", "city Astana street Konaeva 10")]

/-- DEFAULT_SITE from src/config.py. -/
def DEFAULT_SITE : String := "DC Konaeva10"

/-- EXCLUDED_TEMPLATES from src/config.py. -/
def EXCLUDED_TEMPLATES : List String :=
  ["Juniper by SNMP", "Template Net SNMP", "Template Module Generic SNMP"]

/-- EXCLUDED_GROUPS from src/config.py. -/
def EXCLUDED_GROUPS : List String :=
  ["Network", "DataStore", "Virtual machines"]

/-- INCLUDED_TEMPLATES from src/config.py. -/
def INCLUDED_TEMPLATES : List String := ["VMware Hypervisor"]

/-- IPHelper.get_site_from_ip from src/utils.py lines 219 to 233: the
first two octets select the site, with the default site for invalid or
missing addresses and unmapped subnets. -/
def get_site_from_ip (ip : Option String) : String :=
  match ip with
  | none => DEFAULT_SITE
  | some ip =>
    if !validate_ip ip then DEFAULT_SITE
    else
      match splitOnChar '.' ip with
      | a :: b :: _ => (getKV SITE_MAPPING (a ++ "." ++ b)).getD DEFAULT_SITE
      | _ => DEFAULT_SITE

/-- A NetBox device record, restricted to the fields the engine reads or
writes.  Reference attributes (device type, role, site, location, rack)
are the identifiers NetBox issued; status and face are plain value
strings; custom_fields carries every defined custom field, with none for
a null value, as the NetBox API serves records. -/
structure Device where
  id : Nat
  name : String
  status : String
  serial : String
  asset_tag : String
  device_type : Nat
  role : Option Nat
  site : Nat
  location : Option Nat
  rack : Option Nat
  position : Option Int
  face : Option String
  custom_fields : List (String × Option String)
deriving DecidableEq

/-- Python str of the stored custom field value: the value, or None. -/
def cfGet (d : Device) (k : String) : Option String :=
  ((getKV d.custom_fields k).getD none)

/-- The run configuration drawn from src/config.py environment settings:
the two protect-lists, the rack conflict switch, dry-run, and whether the
Redis fingerprint cache is available. -/
structure SyncCfg where
  protected_fields : List String
  protected_custom_fields : List String
  check_rack_conflicts : Bool
  dry_run : Bool
  redis_enabled : Bool
deriving DecidableEq

/-- Deterministic resolution environment for dependent entities.  Each
function abstracts the corresponding get-or-create helper of
ServerSync (ensure_manufacturer after vendor normalisation and the
Unknown-to-Generic substitution feed manufacturerId; ensure_device_type
feeds deviceTypeId from the raw inventory model and the manufacturer;
ensure_location feeds locationId; ensure_rack feeds rackId from the rack
name and the site; the Server role feeds roleId).  These helpers are
get-or-create and return the same identifier on every call of a run and
across runs, which this abstraction makes explicit.  today is the
date.isoformat string used for the last_sync custom field. -/
structure Env where
  siteId : String → Option Nat
  locationId : String → Option Nat
  manufacturerId : String → Option Nat
  deviceTypeId : String → Nat → Option Nat
  rackId : String → Nat → Option Nat
  roleId : Option Nat
  today : String

/-- A recorded rack position conflict, the dictionary appended to
stats rack_conflicts in src/sync.py lines 655 to 660. -/
structure RackConflict where
  device : String
  rack : String
  position : Int
  conflict_with : String
deriving DecidableEq

/-- One value of the device_data dictionary built in sync_device: a
string, a NetBox identifier, an integer rack position, the nested custom
field dictionary, or None as later injected by the rack-removal branch. -/
inductive FieldVal where
  | s (v : String)
  | n (v : Nat)
  | i (v : Int)
  | cfs (v : List (String × String))
  | null
deriving DecidableEq

/-- The state threaded through a run: NetBox content, a fresh identifier
counter for created devices, the two Redis keyspaces (hash and snapshot)
and the last-seen store, the stats lists of ServerSync, and
instrumentation logs recording every device.update call, every device
create call, and every fingerprint cache write of the current run. -/
structure St where
  nb : List Device
  freshId : Nat
  redisHash : List (String × String)
  redisData : List (String × Host)
  lastSeen : List (String × Nat)
  statsNew : List String
  statsChanged : List String
  statsRecovered : List String
  statsRenamed : List String
  statsSkipped : List String
  statsErrors : List String
  statsDecommissioned : List String
  rackConflicts : List RackConflict
  updateCalls : List Nat
  createCalls : List String
  cacheWrites : List (String × String)
deriving DecidableEq

/-- DataValidator.validate_host_data from src/utils.py lines 18 to 46:
hostid, name and a non-empty inventory are required; vendor and model
absence only warns. -/
def validate_host_data (h : Host) : Bool :=
  h.hostid != "" && h.name != "" && !h.inventory.isEmpty

/-- ServerSync.check_rack_position_conflict from src/sync.py lines 489 to
514: the devices filtered to the exact rack and position, skipping the
one whose identifier equals the given device_id when one is given (a
falsy None skips nothing), returning the first remaining occupant. -/
def check_rack_position_conflict (nb : List Device) (rackId : Nat)
    (position : Int) (device_id : Option Nat) : Option Device :=
  if position = 0 then none
  else
    (nb.filter (fun d => d.rack == some rackId && d.position == some position)).find?
      (fun c => match device_id with
        | some did => c.id != did
        | none => true)

/-- Replace the device with the given identifier, the effect of saving a
mutated pynetbox record back to NetBox. -/
def replaceDevice (nb : List Device) (i : Nat) (d : Device) : List Device :=
  nb.map (fun x => if x.id = i then d else x)

/-- Result of ServerSync.get_or_create_device: the possibly updated
NetBox content (a rename or a hostid backfill saves the device), the
entity found, whether a new one must be created, and the rename stat. -/
structure GocResult where
  nb : List Device
  device : Option Device
  isNew : Bool
  renamed : List String
deriving DecidableEq

/-- ServerSync.get_or_create_device from src/sync.py lines 446 to 487:
lookup by the zabbix_hostid custom field first (renaming the entity when
the display name moved), then by exact name (backfilling the hostid tag),
otherwise signal that a new device is to be created. -/
def get_or_create_device (dry : Bool) (nb : List Device) (h : Host) : GocResult :=
  match nb.filter (fun d => cfGet d "zabbix_hostid" == some h.hostid) with
  | d :: _ =>
    if d.name != h.name then
      if dry then ⟨nb, some d, false, [d.name ++ " -> " ++ h.name]⟩
      else
        let d2 := { d with name := h.name }
        ⟨replaceDevice nb d.id d2, some d2, false, [d.name ++ " -> " ++ h.name]⟩
    else ⟨nb, some d, false, []⟩
  | [] =>
    match nb.find? (fun d => d.name == h.name) with
    | some d =>
      if (cfGet d "zabbix_hostid").getD "" = "" then
        if dry then ⟨nb, some d, false, []⟩
        else
          let d2 := { d with custom_fields := setKV d.custom_fields "zabbix_hostid" (some h.hostid) }
          ⟨replaceDevice nb d.id d2, some d2, false, []⟩
      else ⟨nb, some d, false, []⟩
    | none => ⟨nb, none, true, []⟩

/-- The custom_fields dictionary built in sync_device, src/sync.py lines
682 to 697, in insertion order, with falsy values dropped. -/
def buildCustomFields (h : Host) (rackName rackUnit today : String) :
    List (String × String) :=
  let memory_gb := normalize_memory (invGet h.inventory "software_app_a")
  ([("cpu_model", invGet h.inventory "hardware"),
    ("memory_size", match memory_gb with
      | some m => if m = 0 then "" else toString m
      | none => ""),
    ("os_name", invGet h.inventory "os"),
    ("os_version", invGet h.inventory "os_short"),
    ("vsphere_cluster", invGet h.inventory "alias"),
    ("rack_location", invGet h.inventory "location"),
    ("zabbix_hostid", h.hostid),
    ("serial_number", invGet h.inventory "serialno_a"),
    ("asset_tag", invGet h.inventory "asset_tag"),
    ("rack_name", rackName),
    ("rack_unit", rackUnit),
    ("last_sync", today)]).filter (fun p => p.2 != "")

/-- Truthiness filter of device_data: None values and empty strings are
dropped, dictionaries and numbers are kept, src/sync.py line 724. -/
def keepFieldVal : FieldVal → Bool
  | .s v => v != ""
  | .null => false
  | _ => true

/-- The device_data dictionary of sync_device, src/sync.py lines 706 to
724, in insertion order with the rack triple appended conditionally and
the truthiness filter applied. -/
def buildDeviceData (h : Host) (devType : Nat) (role : Option Nat) (site : Nat)
    (newStatus : String) (location : Option Nat)
    (custom_fields : List (String × String))
    (rack : Option Nat) (rackPos : Option Int) : List (String × FieldVal) :=
  let base : List (String × FieldVal) :=
    [("name", .s h.name),
     ("device_type", .n devType)] ++
    (match role with | some r => [("role", FieldVal.n r)] | none => []) ++
    [("site", .n site),
     ("status", .s newStatus)] ++
    (match location with | some l => [("location", FieldVal.n l)] | none => []) ++
    [("serial", .s (invGet h.inventory "serialno_a")),
     ("asset_tag", .s (invGet h.inventory "asset_tag")),
     ("custom_fields", .cfs custom_fields)]
  let rackPart : List (String × FieldVal) :=
    match rack with
    | some rid =>
      [("rack", FieldVal.n rid)] ++
      (match rackPos with
       | some p => if p ≠ 0 then [("position", FieldVal.i p), ("face", FieldVal.s "front")] else []
       | none => [])
    | none => []
  (base ++ rackPart).filter (fun kv => keepFieldVal kv.2)

/-- Python str of the stored attribute named by the update loop, after
the id extraction for reference attributes, src/sync.py lines 760 to 776. -/
def fieldOldStr (d : Device) : String → String
  | "name" => d.name
  | "device_type" => toString d.device_type
  | "role" => match d.role with | some r => toString r | none => "None"
  | "site" => toString d.site
  | "status" => d.status
  | "location" => match d.location with | some l => toString l | none => "None"
  | "serial" => d.serial
  | "asset_tag" => d.asset_tag
  | "face" => optStr d.face
  | _ => "None"

/-- Python str of the incoming device_data value in the update loop. -/
def newValStr : FieldVal → String
  | .s v => v
  | .n v => toString v
  | .i v => intStr v
  | .cfs _ => ""
  | .null => "None"

/-- The change detection loop of the update branch, src/sync.py lines 743
to 776: protected top-level fields are skipped, protected custom fields
are skipped inside the custom_fields comparison, rack and position are
compared as identifiers, everything else as strings.  Only the names of
the changed fields are recorded; the human-readable old and new rendering
of the log message is reporting only. -/
def computeChanges (prot protCf : List String) (d : Device)
    (dd : List (String × FieldVal)) : List String :=
  dd.foldl (fun acc kv =>
    if prot.contains kv.1 then acc
    else
      match kv.1, kv.2 with
      | "custom_fields", .cfs l =>
        acc ++ l.foldl (fun a cf =>
          if protCf.contains cf.1 then a
          else if optStr (cfGet d cf.1) != cf.2 then a ++ [cf.1] else a) []
      | "rack", .n rid => if d.rack != some rid then acc ++ ["rack"] else acc
      | "position", .i p => if d.position != some p then acc ++ ["position"] else acc
      | k, v => if fieldOldStr d k != newValStr v then acc ++ [k] else acc)
    []

/-- The server-side effect of one field of the PATCH issued by
device.update: top-level fields are overwritten, the custom_fields
dictionary is merged key by key, None clears the reference fields the
rack-removal branch nulls out. -/
def applyField (d : Device) : String × FieldVal → Device
  | ("name", .s v) => { d with name := v }
  | ("device_type", .n v) => { d with device_type := v }
  | ("role", .n v) => { d with role := some v }
  | ("site", .n v) => { d with site := v }
  | ("status", .s v) => { d with status := v }
  | ("location", .n v) => { d with location := some v }
  | ("serial", .s v) => { d with serial := v }
  | ("asset_tag", .s v) => { d with asset_tag := v }
  | ("custom_fields", .cfs l) =>
    { d with custom_fields :=
        l.foldl (fun cf kv => setKV cf kv.1 (some kv.2)) d.custom_fields }
  | ("rack", .n v) => { d with rack := some v }
  | ("rack", .null) => { d with rack := none }
  | ("position", .i v) => { d with position := some v }
  | ("position", .null) => { d with position := none }
  | ("face", .s v) => { d with face := some v }
  | ("face", .null) => { d with face := none }
  | (_, _) => d

/-- The server-side effect of device.update with the given payload. -/
def applyUpdate (d : Device) (dd : List (String × FieldVal)) : Device :=
  dd.foldl applyField d

/-- A blank device to which the create payload is applied, modelling
netbox.dcim.devices.create with a fresh identifier. -/
def blankDevice (i : Nat) : Device :=
  ⟨i, "", "", "", "", 0, none, 0, none, none, none, none, []⟩

/-- Python int applied to the rack_unit inventory string: optional sign
and digits after stripping whitespace, None on ValueError. -/
def parseIntPy (s : String) : Option Int :=
  match (pyStrip s).data with
  | '-' :: ds =>
    if !ds.isEmpty && ds.all Char.isDigit
    then some (-(strToNat (String.mk ds) : Int)) else none
  | '+' :: ds =>
    if !ds.isEmpty && ds.all Char.isDigit
    then some ((strToNat (String.mk ds) : Int)) else none
  | ds =>
    if !ds.isEmpty && ds.all Char.isDigit
    then some ((strToNat (String.mk ds) : Int)) else none

/-- Outcome of the resolution prefix of sync_device (src/sync.py lines
576 to 665): the record is skipped by validation, fails a dependency
resolution, or proceeds with the resolved identifiers, the rack and
position after conflict arbitration, and the recorded conflicts. -/
inductive Phase1 where
  | skip
  | err
  | go (site : Nat) (location : Option Nat) (devType : Nat)
      (rack : Option Nat) (rackPos : Option Int)
      (conflicts : List RackConflict) (rackName rackUnit : String)
deriving DecidableEq

/-- The resolution prefix of sync_device: validation, site with the
default-site fallback, location, manufacturer, device type, then the rack
block with the position parse and the conflict check called with a None
device_id exactly as the call site at src/sync.py line 650 does. -/
def sync_phase1 (cfg : SyncCfg) (env : Env) (nb : List Device) (h : Host) : Phase1 :=
  if !validate_host_data h then .skip
  else
    let primary_ip := get_primary_ip h
    let site_name := get_site_from_ip primary_ip
    match (match env.siteId site_name with
           | some s => some s
           | none => env.siteId DEFAULT_SITE) with
    | none => .err
    | some site =>
      let location := match getKV LOCATION_MAPPING site_name with
        | some ln => env.locationId ln
        | none => none
      match env.manufacturerId
        (let v := normalize_vendor (invGet h.inventory "vendor")
         if v = "Unknown" then "Generic" else v) with
      | none => .err
      | some manuf =>
        match env.deviceTypeId (invGet h.inventory "model") manuf with
        | none => .err
        | some devType =>
          let rackName := invGet h.inventory "software_app_b"
          let rackUnit := invGet h.inventory "location_lon"
          let rack0 := if rackName != "" then env.rackId rackName site else none
          match rack0 with
          | some rid =>
            if rackUnit != "" then
              match parseIntPy rackUnit with
              | some p =>
                if cfg.check_rack_conflicts then
                  match check_rack_position_conflict nb rid p none with
                  | some cdev =>
                    .go site location devType none none
                      [⟨h.name, rackName, p, cdev.name⟩] rackName rackUnit
                  | none => .go site location devType (some rid) (some p) [] rackName rackUnit
                else .go site location devType (some rid) (some p) [] rackName rackUnit
              | none => .go site location devType (some rid) none [] rackName rackUnit
            else .go site location devType (some rid) none [] rackName rackUnit
          | none => .go site location devType none none [] rackName rackUnit

/-- The update branch of sync_device, src/sync.py lines 726 to 805: the
status recovery stat, the protected-field-filtered change detection, the
rack-removal amendment of the payload, then on a non-empty change list
and outside dry-run the device.update call with the full device_data
payload followed by the fingerprint cache rewrite.  The in-memory
clearing of the decommissioned_date custom field on recovery (lines 734
to 735) mutates only the local record object; device.update immediately
replaces the local custom_fields dictionary with the payload before
saving, so that mutation never reaches NetBox and the stored entity keeps
its decommissioned_date, which is why no state change models it here. -/
def syncUpdate (cfg : SyncCfg) (st : St) (h : Host) (dev : Device)
    (dd : List (String × FieldVal)) (rackName newStatus hsh : String) : St :=
  let st1 :=
    if dev.status = "decommissioning" ∧ newStatus = "active"
    then { st with statsRecovered := st.statsRecovered ++ [h.name] }
    else st
  let removedRack := rackName = "" ∧ dev.rack.isSome
  let changes :=
    let c := computeChanges cfg.protected_fields cfg.protected_custom_fields dev dd
    if removedRack then c ++ ["rack"] else c
  let dd2 :=
    if removedRack
    then dd ++ [("rack", FieldVal.null), ("position", FieldVal.null), ("face", FieldVal.null)]
    else dd
  if changes.isEmpty then st1
  else if cfg.dry_run then st1
  else
    let st2 := { st1 with
      nb := replaceDevice st1.nb dev.id (applyUpdate dev dd2),
      statsChanged := st1.statsChanged ++ [h.name],
      updateCalls := st1.updateCalls ++ [dev.id] }
    if cfg.redis_enabled then
      { st2 with
        redisHash := setKV st2.redisHash h.hostid hsh,
        redisData := setKV st2.redisData h.hostid h,
        cacheWrites := st2.cacheWrites ++ [(h.hostid, hsh)] }
    else st2

/-- The create branch of sync_device, src/sync.py lines 806 to 826:
outside dry-run the device is created from the payload and the
fingerprint cache is rewritten. -/
def syncCreate (cfg : SyncCfg) (st : St) (h : Host)
    (dd : List (String × FieldVal)) (hsh : String) : St :=
  if cfg.dry_run then st
  else
    let st2 := { st with
      nb := st.nb ++ [applyUpdate (blankDevice st.freshId) dd],
      freshId := st.freshId + 1,
      statsNew := st.statsNew ++ [h.name],
      createCalls := st.createCalls ++ [h.name] }
    if cfg.redis_enabled then
      { st2 with
        redisHash := setKV st2.redisHash h.hostid hsh,
        redisData := setKV st2.redisData h.hostid h,
        cacheWrites := st2.cacheWrites ++ [(h.hostid, hsh)] }
    else st2

/-- ServerSync.sync_device, src/sync.py lines 570 to 844, without the
interface and address synchronisation of sync_ip_address: that step
reads and writes only interfaces, addresses and the primary address
pointer, never the device fields, the change list or the fingerprint
cache, and it performs no device.update call, so it is irrelevant to
every claim settled here and is omitted from the state. -/
def sync_device (cfg : SyncCfg) (env : Env) (st : St) (h : Host) : St :=
  match sync_phase1 cfg env st.nb h with
  | .skip => { st with statsSkipped := st.statsSkipped ++ [h.name] }
  | .err => { st with statsErrors := st.statsErrors ++ [h.name] }
  | .go site location devType rack rackPos conflicts rackName rackUnit =>
    let st1 := { st with rackConflicts := st.rackConflicts ++ conflicts }
    let newStatus := if h.status = "0" then "active" else "offline"
    let dd := buildDeviceData h devType env.roleId site newStatus location
      (buildCustomFields h rackName rackUnit env.today) rack rackPos
    let hsh := calculate_host_hash h (get_primary_ip h)
    let goc := get_or_create_device cfg.dry_run st1.nb h
    let st2 := { st1 with nb := goc.nb, statsRenamed := st1.statsRenamed ++ goc.renamed }
    match goc.device, goc.isNew with
    | some dev, false => syncUpdate cfg st2 h dev dd rackName newStatus hsh
    | _, _ => syncCreate cfg st2 h dd hsh

/-- One classification step of check_changes: a cache miss appends to the
new list, a stale hash appends to the changed list, a hash hit drops the
record. -/
def ccStep (st : St) (acc : List Host × List Host) (h : Host) :
    List Host × List Host :=
  match getKV st.redisHash h.hostid with
  | none => (acc.1 ++ [h], acc.2)
  | some o =>
    if o ≠ calculate_host_hash h (get_primary_ip h)
    then (acc.1, acc.2 ++ [h]) else acc

/-- ServerSync.check_changes, src/sync.py lines 181 to 227: without the
cache every record is new; with it the recomputed fingerprint is compared
against the cached hash, a miss is new, a differing hash is changed, an
equal hash drops the record.  The snapshot diff fed to
stats detailed_changes is reporting only and the cache-failure fail-open
path is outside the failure-free model. -/
def check_changes (cfg : SyncCfg) (st : St) (hosts : List Host) :
    List Host × List Host :=
  if !cfg.redis_enabled then (hosts, [])
  else hosts.foldl (ccStep st) ([], [])

/-- The per-run stats and instrumentation reset: each invocation of the
engine starts a ServerSync object with empty stats, while NetBox and
Redis persist. -/
def resetRun (st : St) : St :=
  { st with
    statsNew := [], statsChanged := [], statsRecovered := [],
    statsRenamed := [], statsSkipped := [], statsErrors := [],
    statsDecommissioned := [], rackConflicts := [],
    updateCalls := [], createCalls := [], cacheWrites := [] }

/-- The record-processing pass of ServerSync.run_sync, src/sync.py lines
1043 to 1059: classify every collected record, then process the new and
the changed records in order.  Batching at line 1054 only groups log
output and does not change the processing order, so the pass is a plain
fold.  The decommission sweep that follows is modelled separately. -/
def run_sync (cfg : SyncCfg) (env : Env) (st : St) (hosts : List Host) : St :=
  let st0 := resetRun st
  let nc := check_changes cfg st0 hosts
  (nc.1 ++ nc.2).foldl (sync_device cfg env) st0

/-- ServerSync.rollback_device_creation, src/sync.py lines 993 to 1026:
outside dry-run, delete the address and the interface when they were
handed in, then delete the device when exactly one device carries its
name.  Address and interface deletion touch only the omitted network
identity state, so the log records them while the device list carries the
device deletion. -/
def rollback_device_creation (dry : Bool) (nb : List Device)
    (device : Option Device) (hasIface hasIp : Bool) :
    List Device × List String :=
  if dry then (nb, [])
  else
    let log := (if hasIp then ["ip"] else []) ++ (if hasIface then ["interface"] else [])
    match device with
    | some d =>
      if (nb.filter (fun x => x.name == d.name)).length = 1 then
        (nb.filter (fun x => x.id != d.id), log ++ ["device"])
      else (nb, log)
    | none => (nb, log)

/-- The exception handler of sync_device, src/sync.py lines 834 to 844:
outside dry-run it hands whatever the local device, interface and
address variables hold to the rollback coordinator; after
get_or_create_device returned an existing entity, the device variable
holds that pre-existing entity. -/
def sync_failure_rollback (dry : Bool) (nb : List Device)
    (device : Option Device) (hasIface hasIp : Bool) :
    List Device × List String :=
  if dry then (nb, []) else rollback_device_creation dry nb device hasIface hasIp

/-- ServerSync.get_vmware_hosts, src/sync.py lines 128 to 179: a single
host.get call (never retried), the template and group substring filter,
and the optional truncation; a raised collection error is caught and
yields the empty list.  The second component counts the remote fetch
attempts performed. -/
def get_vmware_hosts (fetch : Except String (List Host)) (limit : Option Nat) :
    List Host × Nat :=
  match fetch with
  | .error _ => ([], 1)
  | .ok hosts =>
    let filtered := hosts.filter (fun h =>
      (h.templates.any (fun t => INCLUDED_TEMPLATES.any
        (fun incl => containsSub t.data incl.data))) &&
      !(h.templates.any (fun t => EXCLUDED_TEMPLATES.any
        (fun excl => containsSub t.data excl.data))) &&
      !(h.groups.any (fun g => EXCLUDED_GROUPS.any
        (fun excl => containsSub g.data excl.data))))
    match limit with
    | some n => if n = 0 then (filtered, 1) else (filtered.take n, 1)
    | none => (filtered, 1)

/-- ServerSync.run_sync from collection onward, src/sync.py lines 1036
to 1040: an empty collection result, whether from zero matching hosts or
from a swallowed collection error, returns the (fresh, empty) stats at
once as a normal completed run. -/
def run_sync_full (cfg : SyncCfg) (env : Env) (fetch : Except String (List Host))
    (limit : Option Nat) (st : St) : St × Nat :=
  let hn := get_vmware_hosts fetch limit
  if hn.1.isEmpty then (resetRun st, hn.2)
  else (run_sync cfg env st hn.1, hn.2)

/-- The exit code selection of main, src/main.py lines 220 to 223: two
when per-record errors were counted, zero otherwise. -/
def main_exit (st : St) : Nat :=
  if st.statsErrors.isEmpty then 0 else 2

/-- The decision of ServerSync._mark_as_decommissioning, src/sync.py
lines 284 to 306, for one absent device. -/
inductive DecomOutcome where
  | stayActive
  | startClock (day : Nat)
  | decommission (day : Nat)
deriving DecidableEq

/-- ServerSync._mark_as_decommissioning, src/sync.py lines 284 to 306:
with a stored last-seen date the whole-day difference to now is compared
strictly against the threshold; decommissioning stamps the
decommissioned_date custom field with today.  Without a stored date the
first absence only records the date.  Days are modelled as day numbers;
the timedelta days attribute of now minus the stored midnight date is
their difference. -/
def mark_as_decommissioning (threshold : Nat) (lastSeen : Option Nat)
    (nowDay : Nat) : DecomOutcome :=
  match lastSeen with
  | some seen =>
    if (nowDay : Int) - (seen : Int) > (threshold : Int)
    then .decommission nowDay
    else .stayActive
  | none => .startClock nowDay

/-- The decommission sweep body of ServerSync.check_decommissioned_devices,
src/sync.py lines 250 to 263: devices with a non-null zabbix_hostid and
active status, filtered to the managed roles when a role list is
configured, are handed to the marker whenever their hostid is truthy and
absent from the active source set.  This body is reached only through
check_decommissioned_devices below, which aborts before it on every run
of the repository as configured. -/
def check_decommission_pass (threshold : Nat) (roleIds : List Nat)
    (activeIds : List String) (lastSeen : String → Option Nat)
    (nowDay : Nat) (nb : List Device) : List (Nat × DecomOutcome) :=
  let devs := nb.filter (fun d =>
    (cfGet d "zabbix_hostid").isSome && d.status == "active")
  let devs2 :=
    if roleIds.isEmpty then devs
    else devs.filter (fun d => match d.role with
      | some r => roleIds.contains r
      | none => false)
  devs2.filterMap (fun d =>
    match cfGet d "zabbix_hostid" with
    | some z =>
      if z != "" && !activeIds.contains z
      then some (d.id, mark_as_decommissioning threshold (lastSeen z) nowDay)
      else none
    | none => none)

/-- The module attribute names bound by src/config.py, its imports
aside.  Notably absent: MANAGED_DEVICE_ROLES, read by src/sync.py lines
243 to 248, and LOG_RETENTION_DAYS, read by src/main.py line 56. -/
def CONFIG_PY_NAMES : List String :=
  ["DRY_RUN", "VERIFY_SSL", "BATCH_SIZE", "HOST_LIMIT", "TIMEOUT",
   "ZABBIX_URL", "ZABBIX_USER", "ZABBIX_PASSWORD",
   "NETBOX_URL", "NETBOX_TOKEN",
   "REDIS_ENABLED", "REDIS_HOST", "REDIS_PORT", "REDIS_DB",
   "REDIS_PASSWORD", "REDIS_KEY_PREFIX", "REDIS_TTL",
   "TELEGRAM_ENABLED", "TELEGRAM_BOT_TOKEN", "TELEGRAM_CHAT_ID",
   "TELEGRAM_PARSE_MODE", "TELEGRAM_DISABLE_NOTIFICATION",
   "LOG_LEVEL", "LOG_FORMAT", "LOG_DIR",
   "SITE_MAPPING", "LOCATION_MAPPING", "U_HEIGHT_MAPPING", "DEFAULT_SITE",
   "CUSTOM_FIELDS", "ZABBIX_TO_NETBOX_MAPPING",
   "EXCLUDED_TEMPLATES", "EXCLUDED_GROUPS", "INCLUDED_TEMPLATES",
   "DECOMMISSION_AFTER_DAYS", "DELETE_DECOMMISSIONED",
   "DELETE_AFTER_DECOMMISSION_DAYS", "ENABLE_PHYSICAL_DELETION",
   "PROTECTED_FIELDS_STR", "PROTECTED_FIELDS",
   "PROTECTED_CUSTOM_FIELDS_STR", "PROTECTED_CUSTOM_FIELDS",
   "ORPHANED_IP_ACTION", "CHECK_RACK_CONFLICTS", "validate_config"]

/-- ServerSync.check_decommissioned_devices, src/sync.py lines 229 to
282.  The whole body runs under one try whose handler at lines 281 to
282 logs and swallows every exception.  Without a cache client the
method returns at once (line 231).  Otherwise the body collects the
active source identifiers and then reads config.MANAGED_DEVICE_ROLES at
line 243; config.py binds no such attribute, so the read raises
AttributeError before the device query at line 250 and the handler
swallows it: neither the sweep of lines 250 to 263, nor the physical
deletion check it calls at line 265, nor the last-seen refresh of
present devices at lines 277 to 279 is ever reached.  The roleIds
argument stands for the role identifiers the code would resolve from
that attribute were it bound; a none result stands for an invocation
that performed no action. -/
def check_decommissioned_devices (redisAvailable : Bool) (threshold : Nat)
    (roleIds : List Nat) (activeIds : List String)
    (lastSeen : String → Option Nat) (nowDay : Nat) (nb : List Device) :
    Option (List (Nat × DecomOutcome)) :=
  if !redisAvailable then none
  else if CONFIG_PY_NAMES.contains "MANAGED_DEVICE_ROLES" then
    some (check_decommission_pass threshold roleIds activeIds lastSeen nowDay nb)
  else none

/-- Lookup of a device by identifier in a NetBox content list. -/
def findDev (nb : List Device) (i : Nat) : Option Device :=
  nb.find? (fun d => d.id == i)

/-- The fingerprint the engine computes for a record, the hash of the
record with its primary address. -/
def hostFingerprint (h : Host) : String :=
  calculate_host_hash h (get_primary_ip h)

/-- One octet as the claim words it: one to three digits, value at most
two hundred fifty-five. -/
def claimOctet (s : String) : Bool :=
  1 ≤ s.length && s.length ≤ 3 && s.data.all Char.isDigit &&
  strToNat s ≤ 255

/-- Address validity as the claim words it: a dotted quad of valid octets
that is none of the three excluded special addresses. -/
def claimValidAddress (ip : String) : Bool :=
  (let parts := splitOnChar '.' ip
   parts.length == 4 && parts.all claimOctet) &&
  !(ip == "0.0.0.0" || ip == "127.0.0.1" || ip == "255.255.255.255")

/-- The primary address selection as the claim words it: the address of
an interface flagged main that passes validation, otherwise the first
interface address that passes validation, otherwise none. -/
def claimPrimaryIp (h : Host) : Option String :=
  match h.interfaces.find? (fun i => i.main == "1" && claimValidAddress i.ip) with
  | some i => some i.ip
  | none => (h.interfaces.find? (fun i => claimValidAddress i.ip)).map Iface.ip

/-- Address validity as the amended claim words it: after removing at
most one trailing line feed the address is a dotted quad of
one-to-three-digit octets each at most two hundred fifty-five, and the
unmodified address is none of the three excluded special addresses. -/
def claimValidAddressAmended (ip : String) : Bool :=
  (let parts := splitOnChar '.' (stripTrailingNewline ip)
   parts.length == 4 && parts.all claimOctet) &&
  !(ip == "0.0.0.0" || ip == "127.0.0.1" || ip == "255.255.255.255")

/-- The primary address selection as the amended claim words it: the
address of an interface flagged main that passes the amended validation,
otherwise the first interface address that passes it, otherwise none. -/
def claimPrimaryIpAmended (h : Host) : Option String :=
  match h.interfaces.find? (fun i => i.main == "1" && claimValidAddressAmended i.ip) with
  | some i => some i.ip
  | none => (h.interfaces.find? (fun i => claimValidAddressAmended i.ip)).map Iface.ip

/-- Claim C3 as stated, at one input: the processed record had its
fingerprint cache entry rewritten by the run. -/
def cache_rewritten_claim (cfg : SyncCfg) (env : Env) (st : St) (h : Host) : Prop :=
  h.hostid ∈ (run_sync cfg env st [h]).cacheWrites.map Prod.fst

/-- Claim C9 as stated, at one input: a collection failure is surfaced to
the caller as a hard error, visible in a non-zero exit signal. -/
def collection_error_surfaced_claim (cfg : SyncCfg) (env : Env) (e : String)
    (limit : Option Nat) (st : St) : Prop :=
  main_exit (run_sync_full cfg env (Except.error e) limit st).1 ≠ 0

/-- A run configuration with no protected fields, conflict checking on,
dry-run off and the cache available. -/
def cfgA : SyncCfg := ⟨[], [], true, false, true⟩

/-- A run configuration protecting the serial top-level field and the
vsphere_cluster custom field. -/
def cfgC1 : SyncCfg := ⟨["serial"], ["vsphere_cluster"], true, false, true⟩

/-- A fixed dependent-entity environment: the default site resolves to
site one, locations to location two, every manufacturer to three, every
device type to four, rack R1 at site one to rack nine, the Server role to
five. -/
def envA : Env :=
  ⟨fun n => if n == "DC Konaeva10" then some 1 else none,
   fun _ => some 2,
   fun _ => some 3,
   fun _ _ => some 4,
   fun n s => if n == "R1" && s == 1 then some 9 else none,
   some 5,
   "2025-06-01"⟩

/-- An empty run state around the given NetBox content and cache. -/
def mkSt (nb : List Device) (rh : List (String × String)) : St :=
  ⟨nb, 100, rh, [], [], [], [], [], [], [], [], [], [], [], [], []⟩

/-- C1 source record: serial and cluster changed at the source, one
unprotected custom field changed as well. -/
def hostC1 : Host :=
  ⟨"100", "srv-a", "0",
   [("vendor", "V"), ("os", "NewOS"), ("serialno_a", "NEWSER"), ("alias", "NEWCLUS")],
   [], [], []⟩

/-- C1 stored device: protected serial and protected cluster hold the
operator-maintained values. -/
def devC1 : Device :=
  ⟨7, "srv-a", "active", "OLDSER", "", 4, some 5, 1, some 2, none, none, none,
   [("zabbix_hostid", some "100"), ("vsphere_cluster", some "OLDCLUS"),
    ("os_name", some "OldOS"), ("last_sync", some "2025-06-01"),
    ("decommissioned_date", none)]⟩

/-- C5 source record targeting rack R1 unit five, which its own stored
device already occupies. -/
def hostC5 : Host :=
  ⟨"300", "srv-c", "0",
   [("vendor", "V"), ("os", "OS"), ("software_app_b", "R1"), ("location_lon", "5")],
   [], [], []⟩

/-- C5 stored device, already placed at rack nine unit five. -/
def devC5 : Device :=
  ⟨11, "srv-c", "active", "", "", 4, some 5, 1, some 2, some 9, some 5, some "front",
   [("zabbix_hostid", some "300"), ("os_name", some "OS"),
    ("rack_name", some "R1"), ("rack_unit", some "5"),
    ("last_sync", some "2025-06-01")]⟩

/-- C5 second scenario: an unrelated device occupying rack nine unit
six. -/
def devC5occ : Device :=
  ⟨12, "other", "active", "", "", 4, some 5, 1, some 2, some 9, some 6, some "front",
   [("zabbix_hostid", some "999")]⟩

/-- C5 second scenario source record targeting the occupied unit six. -/
def hostC5b : Host :=
  ⟨"301", "srv-d", "0",
   [("vendor", "V"), ("os", "OS"), ("software_app_b", "R1"), ("location_lon", "6")],
   [], [], []⟩

/-- C5 second scenario stored device of the record being synced, without
a placement. -/
def devC5d : Device :=
  ⟨13, "srv-d", "active", "", "", 4, some 5, 1, some 2, none, none, none,
   [("zabbix_hostid", some "301"), ("os_name", some "OS"),
    ("rack_name", some "R1"), ("rack_unit", some "6"),
    ("last_sync", some "2025-06-01")]⟩

/-- C3 record whose fingerprint is exactly the cached one. -/
def hostC3 : Host :=
  ⟨"600", "srv-g", "0", [("vendor", "V"), ("os", "OS")], [], [], []⟩

/-- C3 stored device matching its record. -/
def devC3 : Device :=
  ⟨31, "srv-g", "active", "", "", 4, some 5, 1, some 2, none, none, none,
   [("zabbix_hostid", some "600"), ("os_name", some "OS"),
    ("last_sync", some "2025-06-01")]⟩

/-- C3 initial state: the cache already holds the current fingerprint. -/
def stC3 : St :=
  mkSt [devC3] [("600", hostFingerprint hostC3)]

/-- C8 inventory in source order. -/
def inv8a : List (String × String) :=
  [("vendor", "Dell Inc."), ("model", "PowerEdge R640"), ("os", "ESXi")]

/-- C8 host carrying that inventory. -/
def host8 : Host := ⟨"700", "srv-h", "0", inv8a, [], [], []⟩

/-- C8 inventory reordered. -/
def inv8b : List (String × String) := inv8a.reverse

/-- C6 stored managed device absent from the source. -/
def devC6 : Device :=
  ⟨41, "srv-i", "active", "", "", 4, some 5, 1, some 2, none, none, none,
   [("zabbix_hostid", some "800")]⟩

/-- C10 main-flagged interface whose address ends in a line feed. -/
def ifaceC10 : Iface := ⟨"1.2.3.4\n", "1"⟩

/-- C10 host carrying only that interface. -/
def hostC10 : Host := ⟨"960", "srv-l", "0", [], [ifaceC10], [], []⟩

/-- C2 source record of a pre-existing device. -/
def hostC2 : Host :=
  ⟨"900", "srv-j", "0", [("vendor", "V")], [], [], []⟩

/-- C2 pre-existing device, the only one carrying its name. -/
def devC2 : Device :=
  ⟨51, "srv-j", "active", "", "", 4, some 5, 1, some 2, none, none, none,
   [("zabbix_hostid", some "900")]⟩

/-- C2 second device sharing the same name. -/
def devC2b : Device :=
  ⟨52, "srv-j", "active", "", "", 4, some 5, 1, some 2, none, none, none,
   [("zabbix_hostid", some "901")]⟩

theorem getKV_cons {α : Type} (p : String × α) (t : List (String × α)) (k : String) :
    getKV (p :: t) k = if p.1 = k then some p.2 else getKV t k := by
  by_cases h : p.1 = k
  · rw [getKV, List.find?_cons_of_pos _ (by simpa using h)]
    simp [h]
  · rw [getKV, List.find?_cons_of_neg _ (by simpa using h)]
    simp [h, getKV]

theorem append_singleton_ne {α : Type} (l : List α) (a : α) : l ++ [a] ≠ l := by
  intro h
  have := congrArg List.length h
  simp at this

/-- C1: on the update of an existing device, the configured protection of
the serial top-level field and of the vsphere_cluster custom field only
removes them from the change detection; the update call then sends the
full payload and both protected values are overwritten on the stored
device, contrary to the claim that they are left unchanged. -/
theorem C1_protected_fields_overwritten_on_update :
    cfgC1.protected_fields = ["serial"] ∧
    cfgC1.protected_custom_fields = ["vsphere_cluster"] ∧
    devC1.serial = "OLDSER" ∧
    cfGet devC1 "vsphere_cluster" = some "OLDCLUS" ∧
    (run_sync cfgC1 envA (mkSt [devC1] []) [hostC1]).updateCalls = [7] ∧
    ((findDev (run_sync cfgC1 envA (mkSt [devC1] []) [hostC1]).nb 7).map
      Device.serial) = some "NEWSER" ∧
    ((findDev (run_sync cfgC1 envA (mkSt [devC1] []) [hostC1]).nb 7).map
      (fun d => cfGet d "vsphere_cluster")) = some (some "NEWCLUS") := by
  decide

/-- C2: the rollback coordinator receives whatever device the failed
pipeline held; for a failure during the update of a pre-existing,
uniquely named entity it deletes that entity, because its only guard is
the name count, while deletion is correctly skipped when two entities
share the name. -/
theorem C2_rollback_deletes_preexisting_device :
    (get_or_create_device false [devC2] hostC2).isNew = false ∧
    (get_or_create_device false [devC2] hostC2).device = some devC2 ∧
    sync_failure_rollback false [devC2] (some devC2) false false = ([], ["device"]) ∧
    sync_failure_rollback false [devC2, devC2b] (some devC2) false false =
      ([devC2, devC2b], []) := by
  decide

/-- C5: the occupant query is called with a None device identifier at the
only call site, so a device already occupying its own target position is
reported as its own conflicting occupant and loses its placement from the
payload, contrary to the claim that the device being synced is excluded;
the remaining behaviour (no fatal error, placement dropped, exactly one
conflict record) is as claimed when the occupant really is a different
device. -/
theorem C5_rack_conflict_self_occupant :
    cfgA.check_rack_conflicts = true ∧
    (run_sync cfgA envA (mkSt [devC5] []) [hostC5]).rackConflicts =
      [⟨"srv-c", "R1", 5, "srv-c"⟩] ∧
    devC5.name = "srv-c" ∧ hostC5.name = "srv-c" ∧
    (run_sync cfgA envA (mkSt [devC5] []) [hostC5]).statsErrors = [] ∧
    (run_sync cfgA envA (mkSt [devC5occ, devC5d] []) [hostC5b]).rackConflicts =
      [⟨"srv-d", "R1", 6, "other"⟩] ∧
    ((findDev (run_sync cfgA envA (mkSt [devC5occ, devC5d] []) [hostC5b]).nb 13).map
      Device.rack) = some none ∧
    (run_sync cfgA envA (mkSt [devC5occ, devC5d] []) [hostC5b]).statsErrors = [] := by
  decide

/-- C3 counterexample: a record whose fingerprint equals the cached hash
is classified unchanged and dropped; the run rewrites nothing in the
cache for it, refuting the claim that the cache entry is rewritten for
every processed record regardless of classification. -/
theorem C3_unchanged_record_cache_not_rewritten :
    ¬ cache_rewritten_claim cfgA envA stC3 hostC3 ∧
    getKV stC3.redisHash hostC3.hostid = some (hostFingerprint hostC3) ∧
    check_changes cfgA (resetRun stC3) [hostC3] = ([], []) ∧
    (run_sync cfgA envA stC3 [hostC3]).cacheWrites = [] ∧
    (run_sync cfgA envA stC3 [hostC3]).redisHash = stC3.redisHash := by
  unfold cache_rewritten_claim
  decide

/-- C9 counterexample: a raised collection error is caught inside the
collector, the run returns at once with empty statistics and the exit
code is zero, indistinguishable from a clean run over zero records,
refuting the claim that the failure is surfaced as a hard error. -/
theorem C9_collection_error_not_surfaced :
    ¬ collection_error_surfaced_claim cfgA envA "connection refused" none (mkSt [] []) ∧
    get_vmware_hosts (Except.error "connection refused") none = ([], 1) ∧
    main_exit (run_sync_full cfgA envA (Except.error "connection refused") none
      (mkSt [] [])).1 = 0 := by
  unfold collection_error_surfaced_claim
  decide

/-- C9 amended: a collection error yields the empty sequence and exactly
one fetch attempt (no internal retry); the run then completes as a normal
run over zero records with empty statistics, and the process exit code is
zero: the failure is logged but never surfaced to the caller as a hard
error. -/
theorem C9_amended_collection_error_swallowed (e : String) (limit : Option Nat)
    (cfg : SyncCfg) (env : Env) (st : St) :
    get_vmware_hosts (Except.error e) limit = ([], 1) ∧
    run_sync_full cfg env (Except.error e) limit st = (resetRun st, 1) ∧
    main_exit (run_sync_full cfg env (Except.error e) limit st).1 = 0 := by
  refine ⟨rfl, by simp [run_sync_full, get_vmware_hosts], ?_⟩
  simp [run_sync_full, get_vmware_hosts, main_exit, resetRun]

/-- C6 (code bug): the timing the claim states is exactly what the
marker and the sweep body implement, evaluated here on a managed active
device absent from the source with a thirty-day threshold (last seen day
one hundred: day one hundred thirty stays active, day one hundred
thirty-one decommissions stamped with today, and with no stored record
the first absence only starts the clock; the sweep body hands the absent
device to the marker).  But that code is dead: config.py binds no
MANAGED_DEVICE_ROLES attribute, so every invocation of
check_decommissioned_devices raises at src/sync.py line 243 and the
handler at line 281 swallows the error before the device query.  The
method performs no action on any input, and in particular the absent
device of the evaluation is never decommissioned and never has a
last-seen date recorded. -/
theorem C6_decommission_sweep_dead :
    CONFIG_PY_NAMES.contains "MANAGED_DEVICE_ROLES" = false ∧
    (∀ (redisAvailable : Bool) (threshold : Nat) (roleIds : List Nat)
       (activeIds : List String) (lastSeen : String → Option Nat)
       (nowDay : Nat) (nb : List Device),
      check_decommissioned_devices redisAvailable threshold roleIds activeIds
        lastSeen nowDay nb = none) ∧
    mark_as_decommissioning 30 (some 100) 130 = DecomOutcome.stayActive ∧
    mark_as_decommissioning 30 (some 100) 131 = DecomOutcome.decommission 131 ∧
    mark_as_decommissioning 30 none 131 = DecomOutcome.startClock 131 ∧
    check_decommission_pass 30 [] []
      (fun z => if z == "800" then some 100 else none) 131 [devC6] =
      [(41, DecomOutcome.decommission 131)] ∧
    check_decommissioned_devices true 30 [] []
      (fun z => if z == "800" then some 100 else none) 131 [devC6] = none := by
  refine ⟨by decide, ?_, by decide, by decide, by decide, by decide, by decide⟩
  intro redisAvailable threshold roleIds activeIds lastSeen nowDay nb
  cases redisAvailable <;> simp [check_decommissioned_devices] <;> decide

theorem getKV_perm {α : Type} (k : String) {l l2 : List (String × α)}
    (hp : l.Perm l2) (hn : (l.map Prod.fst).Nodup) : getKV l k = getKV l2 k := by
  induction hp with
  | nil => rfl
  | cons x hp2 ih =>
    rw [List.map_cons] at hn
    rw [getKV_cons, getKV_cons]
    by_cases hx : x.1 = k
    · simp [hx]
    · simp only [hx, if_false]
      exact ih (List.nodup_cons.mp hn).2
  | swap x y t =>
    rw [List.map_cons, List.map_cons] at hn
    rw [getKV_cons, getKV_cons, getKV_cons, getKV_cons]
    have hyx : y.1 ≠ x.1 := by
      have h1 := (List.nodup_cons.mp hn).1
      intro he
      exact h1 (he ▸ List.mem_cons_self _ _)
    by_cases hy : y.1 = k <;> by_cases hx : x.1 = k
    · exact absurd (hy.trans hx.symm) hyx
    · simp [hy, hx]
    · simp [hy, hx]
    · simp [hy, hx]
  | trans hp1 hp2 ih1 ih2 =>
    have hn2 := ((hp1.map Prod.fst).nodup_iff).mp hn
    exact (ih1 hn).trans (ih2 hn2)

/-- C8: the fingerprint is a pure function of the significant fields of
the record: recomputation on identical input yields the identical hash,
and permuting the attribute dictionary of the record (whose keys are
distinct, as in any dictionary) leaves the hash unchanged. -/
theorem C8_hash_deterministic_and_order_invariant (h : Host) (ip : Option String)
    (inv2 : List (String × String)) :
    calculate_host_hash h ip = calculate_host_hash h ip ∧
    (h.inventory.Perm inv2 → (h.inventory.map Prod.fst).Nodup →
      calculate_host_hash h ip = calculate_host_hash { h with inventory := inv2 } ip) := by
  refine ⟨rfl, fun hp hn => ?_⟩
  have key : ∀ k2, invGet h.inventory k2 = invGet inv2 k2 := by
    intro k2
    unfold invGet
    rw [getKV_perm k2 hp hn]
  simp only [calculate_host_hash, hash_fields]
  simp [key]

/-- C8 witness: the hash of the sample record equals the hash of the same
record with its inventory reversed. -/
theorem C8_hash_witness :
    calculate_host_hash host8 none =
      calculate_host_hash { host8 with inventory := inv8b } none :=
  (C8_hash_deterministic_and_order_invariant host8 none inv8b).2
    (List.reverse_perm inv8a).symm (by decide)

theorem octet_pointwise (s : String) :
    ((1 ≤ s.length && s.length ≤ 3 && s.data.all Char.isDigit) &&
      !(decide (strToNat s > 255))) = claimOctet s := by
  unfold claimOctet
  by_cases h : strToNat s ≤ 255
  · simp [h, Nat.not_lt.mpr h]
  · simp [h, Nat.lt_of_not_le h]

theorem all_and_not_any {α : Type} (p q : α → Bool) (l : List α) :
    (l.all p && !l.any q) = l.all (fun x => p x && !q x) := by
  induction l with
  | nil => rfl
  | cons a t ih =>
    rw [List.all_cons, List.any_cons, List.all_cons, ← ih, Bool.not_or]
    cases p a <;> cases q a <;> cases t.all p <;> cases t.any q <;> rfl

theorem validate_ip_eq_amended (ip : String) :
    validate_ip ip = claimValidAddressAmended ip := by
  by_cases h0 : ip = ""
  · subst h0
    decide
  · simp only [validate_ip, claimValidAddressAmended, h0, if_false]
    have key : (((splitOnChar '.' (stripTrailingNewline ip)).all
          (fun p => 1 ≤ p.length && p.length ≤ 3 && p.data.all Char.isDigit))
        && !((splitOnChar '.' (stripTrailingNewline ip)).any
          (fun octet => decide (strToNat octet > 255))))
        = (splitOnChar '.' (stripTrailingNewline ip)).all claimOctet := by
      rw [all_and_not_any]
      simp only [octet_pointwise]
    rw [← key]
    cases ha : (splitOnChar '.' (stripTrailingNewline ip)).length == 4 <;>
    cases hb : (splitOnChar '.' (stripTrailingNewline ip)).all
        (fun p => 1 ≤ p.length && p.length ≤ 3 && p.data.all Char.isDigit) <;>
    cases hc : (splitOnChar '.' (stripTrailingNewline ip)).any
        (fun octet => decide (strToNat octet > 255)) <;>
    cases hd : (decide (ip = "0.0.0.0") || decide (ip = "127.0.0.1") ||
        decide (ip = "255.255.255.255")) <;>
    simp [ha, hb, hc, hd]

/-- C10 counterexample: the source accepts the address 1.2.3.4 followed
by a line feed — the dollar anchor of the Python pattern matches before
a trailing line feed and int ignores it — so on a host whose
main-flagged interface carries that address get_primary_ip returns it,
while under the claimed validation wording no interface is valid and the
claimed selection yields none: the claimed characterization of
validation is false of the code. -/
theorem C10_newline_address_counterexample :
    validate_ip "1.2.3.4\n" = true ∧
    claimValidAddress "1.2.3.4\n" = false ∧
    get_primary_ip hostC10 = some "1.2.3.4\n" ∧
    claimPrimaryIp hostC10 = none := by decide

/-- C10 amended: for a host whose interface addresses are ASCII, the
primary address selection of the engine coincides with the amended
claim: the address of an interface flagged main when it passes
validation, otherwise the first interface address passing validation,
otherwise none — where an address passes validation iff after removing
at most one trailing line feed it is a dotted quad of one-to-three-digit
octets each at most two hundred fifty-five and the unmodified address is
none of the three excluded special addresses.  The ASCII bound marks the
scope of the embedding: the digit class of the Python pattern also
admits the other Unicode decimal digits, which neither the amended
wording nor this model covers. -/
theorem C10_amended_primary_ip (h : Host)
    (hascii : ∀ i ∈ h.interfaces, i.ip.data.all (fun c => c.toNat < 128) = true) :
    get_primary_ip h = claimPrimaryIpAmended h := by
  have hpred : (fun i : Iface => i.main == "1" && i.ip != "" && validate_ip i.ip)
      = (fun i : Iface => i.main == "1" && claimValidAddressAmended i.ip) := by
    funext i
    rw [validate_ip_eq_amended]
    have hcv : claimValidAddressAmended "" = false := by decide
    by_cases hip : i.ip = ""
    · rw [hip]
      simp [hcv]
    · have hb : (i.ip == "") = false := beq_eq_false_iff_ne.mpr hip
      simp [bne, hb]
  have hpred2 : (fun i : Iface => i.ip != "" && validate_ip i.ip)
      = (fun i : Iface => claimValidAddressAmended i.ip) := by
    funext i
    rw [validate_ip_eq_amended]
    have hcv : claimValidAddressAmended "" = false := by decide
    by_cases hip : i.ip = ""
    · rw [hip]
      simp [hcv]
    · have hb : (i.ip == "") = false := beq_eq_false_iff_ne.mpr hip
      simp [bne, hb]
  unfold get_primary_ip claimPrimaryIpAmended
  rw [hpred, hpred2]
  cases h.interfaces.find?
      (fun i : Iface => i.main == "1" && claimValidAddressAmended i.ip) <;>
  cases hf2 : h.interfaces.find? (fun i : Iface => claimValidAddressAmended i.ip) <;>
  simp [hf2]

/-- C10 amended witness: the host whose main interface address is
1.2.3.4 followed by a line feed has ASCII addresses, and on it the
engine and the amended selection agree. -/
theorem C10_amended_primary_ip_witness :
    (∀ i ∈ hostC10.interfaces, i.ip.data.all (fun c => c.toNat < 128) = true) ∧
    get_primary_ip hostC10 = claimPrimaryIpAmended hostC10 :=
  ⟨by decide, C10_amended_primary_ip hostC10 (by decide)⟩

theorem isEmpty_append_singleton {α : Type} (l : List α) (a : α) :
    (l ++ [a]).isEmpty = false := by
  cases l <;> rfl

theorem syncUpdate_logs (cfg : SyncCfg) (st : St) (h : Host) (dev : Device)
    (dd : List (String × FieldVal)) (rn ns hsh : String)
    (hr : cfg.redis_enabled = true) :
    ((syncUpdate cfg st h dev dd rn ns hsh).cacheWrites = st.cacheWrites ∧
     (syncUpdate cfg st h dev dd rn ns hsh).redisHash = st.redisHash ∧
     (syncUpdate cfg st h dev dd rn ns hsh).updateCalls = st.updateCalls ∧
     (syncUpdate cfg st h dev dd rn ns hsh).createCalls = st.createCalls) ∨
    ((syncUpdate cfg st h dev dd rn ns hsh).cacheWrites =
        st.cacheWrites ++ [(h.hostid, hsh)] ∧
     (syncUpdate cfg st h dev dd rn ns hsh).redisHash =
        setKV st.redisHash h.hostid hsh ∧
     (syncUpdate cfg st h dev dd rn ns hsh).updateCalls = st.updateCalls ++ [dev.id] ∧
     (syncUpdate cfg st h dev dd rn ns hsh).createCalls = st.createCalls) := by
  by_cases h1 : (dev.status = "decommissioning" ∧ ns = "active") <;>
  by_cases h2 : (rn = "" ∧ dev.rack.isSome = true) <;>
  by_cases h3 : cfg.dry_run = true <;>
  by_cases h4 : (computeChanges cfg.protected_fields
    cfg.protected_custom_fields dev dd).isEmpty = true
  all_goals first
    | (left; refine ⟨?_, ?_, ?_, ?_⟩ <;>
        (simp [syncUpdate, hr, h1, h2, h3, h4, isEmpty_append_singleton]; done))
    | (right; refine ⟨?_, ?_, ?_, ?_⟩ <;>
        (simp [syncUpdate, hr, h1, h2, h3, h4, isEmpty_append_singleton]; done))

theorem syncCreate_logs (cfg : SyncCfg) (st : St) (h : Host)
    (dd : List (String × FieldVal)) (hsh : String)
    (hr : cfg.redis_enabled = true) :
    ((syncCreate cfg st h dd hsh).cacheWrites = st.cacheWrites ∧
     (syncCreate cfg st h dd hsh).redisHash = st.redisHash ∧
     (syncCreate cfg st h dd hsh).updateCalls = st.updateCalls ∧
     (syncCreate cfg st h dd hsh).createCalls = st.createCalls) ∨
    ((syncCreate cfg st h dd hsh).cacheWrites =
        st.cacheWrites ++ [(h.hostid, hsh)] ∧
     (syncCreate cfg st h dd hsh).redisHash = setKV st.redisHash h.hostid hsh ∧
     (syncCreate cfg st h dd hsh).updateCalls = st.updateCalls ∧
     (syncCreate cfg st h dd hsh).createCalls = st.createCalls ++ [h.name]) := by
  by_cases h3 : cfg.dry_run = true
  · left
    exact ⟨by simp [syncCreate, hr, h3], by simp [syncCreate, hr, h3],
      by simp [syncCreate, hr, h3], by simp [syncCreate, hr, h3]⟩
  · right
    exact ⟨by simp [syncCreate, hr, h3], by simp [syncCreate, hr, h3],
      by simp [syncCreate, hr, h3], by simp [syncCreate, hr, h3]⟩

theorem sync_device_log_cases (cfg : SyncCfg) (env : Env) (st : St) (h : Host)
    (hr : cfg.redis_enabled = true) :
    ((sync_device cfg env st h).cacheWrites = st.cacheWrites ∧
     (sync_device cfg env st h).redisHash = st.redisHash ∧
     (sync_device cfg env st h).updateCalls = st.updateCalls ∧
     (sync_device cfg env st h).createCalls = st.createCalls) ∨
    (((sync_device cfg env st h).cacheWrites =
        st.cacheWrites ++ [(h.hostid, hostFingerprint h)] ∧
      (sync_device cfg env st h).redisHash =
        setKV st.redisHash h.hostid (hostFingerprint h)) ∧
     ((∃ i, (sync_device cfg env st h).updateCalls = st.updateCalls ++ [i] ∧
            (sync_device cfg env st h).createCalls = st.createCalls) ∨
      ((sync_device cfg env st h).updateCalls = st.updateCalls ∧
       (sync_device cfg env st h).createCalls = st.createCalls ++ [h.name]))) := by
  rcases hp : sync_phase1 cfg env st.nb h with _ | _ |
    ⟨site, loc, dt, rack, pos, confs, rn, ru⟩
  · left
    refine ⟨?_, ?_, ?_, ?_⟩ <;> simp [sync_device, hp]
  · left
    refine ⟨?_, ?_, ?_, ?_⟩ <;> simp [sync_device, hp]
  · rcases hg : get_or_create_device cfg.dry_run st.nb h with ⟨nb2, odev, isNew, ren⟩
    cases odev with
    | some dev =>
      cases isNew with
      | false =>
        simp only [sync_device, hp, hg]
        rcases (syncUpdate_logs cfg
            { st with
              nb := nb2,
              rackConflicts := st.rackConflicts ++ confs,
              statsRenamed := st.statsRenamed ++ ren }
            h dev
            (buildDeviceData h dt env.roleId site
              (if h.status = "0" then "active" else "offline") loc
              (buildCustomFields h rn ru env.today) rack pos)
            rn (if h.status = "0" then "active" else "offline")
            (calculate_host_hash h (get_primary_ip h)) hr) with
          ⟨h1, h2, h3, h4⟩ | ⟨h1, h2, h3, h4⟩
        · exact Or.inl ⟨h1, h2, h3, h4⟩
        · exact Or.inr ⟨⟨h1, h2⟩, Or.inl ⟨dev.id, h3, h4⟩⟩
      | true =>
        simp only [sync_device, hp, hg]
        rcases (syncCreate_logs cfg
            { st with
              nb := nb2,
              rackConflicts := st.rackConflicts ++ confs,
              statsRenamed := st.statsRenamed ++ ren }
            h
            (buildDeviceData h dt env.roleId site
              (if h.status = "0" then "active" else "offline") loc
              (buildCustomFields h rn ru env.today) rack pos)
            (calculate_host_hash h (get_primary_ip h)) hr) with
          ⟨h1, h2, h3, h4⟩ | ⟨h1, h2, h3, h4⟩
        · exact Or.inl ⟨h1, h2, h3, h4⟩
        · exact Or.inr ⟨⟨h1, h2⟩, Or.inr ⟨h3, h4⟩⟩
    | none =>
      cases isNew with
      | false =>
        simp only [sync_device, hp, hg]
        rcases (syncCreate_logs cfg
            { st with
              nb := nb2,
              rackConflicts := st.rackConflicts ++ confs,
              statsRenamed := st.statsRenamed ++ ren }
            h
            (buildDeviceData h dt env.roleId site
              (if h.status = "0" then "active" else "offline") loc
              (buildCustomFields h rn ru env.today) rack pos)
            (calculate_host_hash h (get_primary_ip h)) hr) with
          ⟨h1, h2, h3, h4⟩ | ⟨h1, h2, h3, h4⟩
        · exact Or.inl ⟨h1, h2, h3, h4⟩
        · exact Or.inr ⟨⟨h1, h2⟩, Or.inr ⟨h3, h4⟩⟩
      | true =>
        simp only [sync_device, hp, hg]
        rcases (syncCreate_logs cfg
            { st with
              nb := nb2,
              rackConflicts := st.rackConflicts ++ confs,
              statsRenamed := st.statsRenamed ++ ren }
            h
            (buildDeviceData h dt env.roleId site
              (if h.status = "0" then "active" else "offline") loc
              (buildCustomFields h rn ru env.today) rack pos)
            (calculate_host_hash h (get_primary_ip h)) hr) with
          ⟨h1, h2, h3, h4⟩ | ⟨h1, h2, h3, h4⟩
        · exact Or.inl ⟨h1, h2, h3, h4⟩
        · exact Or.inr ⟨⟨h1, h2⟩, Or.inr ⟨h3, h4⟩⟩

theorem check_changes_single (cfg : SyncCfg) (st : St) (h : Host)
    (hr : cfg.redis_enabled = true) :
    check_changes cfg st [h] = ([h], []) ∨ check_changes cfg st [h] = ([], [h]) ∨
    check_changes cfg st [h] = ([], []) := by
  simp only [check_changes, hr, Bool.not_true, List.foldl_cons, List.foldl_nil,
    Bool.false_eq_true, if_false]
  unfold ccStep
  split
  · left
    rfl
  · split
    · right
      left
      rfl
    · right
      right
      rfl

/-- C3 amended: with the cache available, a run over one record rewrites
the fingerprint cache entry exactly when it performs a remote write for
the record, a device create or a device update; an unchanged record, a
changed record whose computed device diff is empty, a skipped or errored
record, and a dry run leave the cache entry untouched. -/
theorem C3_amended_cache_rewritten_iff_upsert_write (cfg : SyncCfg) (env : Env)
    (st : St) (h : Host) (hr : cfg.redis_enabled = true) :
    (run_sync cfg env st [h]).cacheWrites ≠ [] ↔
      ((run_sync cfg env st [h]).updateCalls ≠ [] ∨
       (run_sync cfg env st [h]).createCalls ≠ []) := by
  have hrw : run_sync cfg env st [h] =
      ((check_changes cfg (resetRun st) [h]).1 ++
        (check_changes cfg (resetRun st) [h]).2).foldl
        (sync_device cfg env) (resetRun st) := rfl
  rw [hrw]
  rcases check_changes_single cfg (resetRun st) h hr with hcc | hcc | hcc <;>
    rw [hcc] <;>
    simp only [List.nil_append, List.append_nil, List.foldl_cons, List.foldl_nil]
  · rcases sync_device_log_cases cfg env (resetRun st) h hr with
      ⟨h1, _, h3, h4⟩ | ⟨⟨h1, _⟩, ⟨i, h3, h4⟩ | ⟨h3, h4⟩⟩ <;>
      rw [h1, h3, h4] <;> simp [resetRun]
  · rcases sync_device_log_cases cfg env (resetRun st) h hr with
      ⟨h1, _, h3, h4⟩ | ⟨⟨h1, _⟩, ⟨i, h3, h4⟩ | ⟨h3, h4⟩⟩ <;>
      rw [h1, h3, h4] <;> simp [resetRun]
  · simp [resetRun]

/-- C3 amended witness: a record synced into an empty target from an
empty cache is created, so the equivalence is inhabited with both sides
true. -/
theorem C3_amended_cache_rewritten_witness :
    (run_sync cfgA envA (mkSt [] []) [hostC3]).cacheWrites ≠ [] ↔
      ((run_sync cfgA envA (mkSt [] []) [hostC3]).updateCalls ≠ [] ∨
       (run_sync cfgA envA (mkSt [] []) [hostC3]).createCalls ≠ []) :=
  C3_amended_cache_rewritten_iff_upsert_write cfgA envA (mkSt [] []) hostC3 rfl

theorem foldl_inv {σ α : Type} (f : σ → α → σ) (P : σ → Prop) :
    ∀ (L : List α) (s0 : σ), (∀ s a, a ∈ L → P s → P (f s a)) → P s0 →
      P (L.foldl f s0)
  | [], _, _, h0 => h0
  | a :: t, s0, hstep, h0 =>
    foldl_inv f P t (f s0 a)
      (fun s b hb => hstep s b (List.mem_cons_of_mem a hb))
      (hstep s0 a (List.mem_cons_self a t) h0)

end ZNSync
